import Mathlib

/-
Verification of the lazydsn driver wrapper: a shallow embedding of the Go
source (dsn.go and the driver file) and proofs of the spec claims about it.
Go interface values are modelled as records of functions, mutation of the
connector struct as explicit state passing, and fallible Go calls as Except.
-/

namespace LazyDSN

/-- Minimal model of Go's context.Context as used by this package: the only
observable fact a resolver or inner connector can consult is whether the
token is already canceled/expired. -/
structure Ctx where
  canceled : Bool
deriving Repr, DecidableEq

/-- Model of the FullDSNProvider interface from dsn.go: the basic fetch plus
the cancellation-aware fetch. -/
structure FullDSNProvider (Err : Type) where
  fetchDSN : String → Except Err String
  fetchDSNWithContext : Ctx → String → Except Err String

/-- Model of the fullProvider wrapper from dsn.go: it augments a basic
DSNProvider, and its FetchDSNWithContext discards the context and calls the
base FetchDSN. -/
def fullProvider {Err : Type} (f : String → Except Err String) : FullDSNProvider Err :=
  { fetchDSN := f, fetchDSNWithContext := fun _ dsn => f dsn }

/-- Model of the dynamic capability check in New: the provider handed in
either implements only DSNProvider (basic) or also FullDSNProvider (full). -/
inductive AnyProvider (Err : Type) where
  | basic (fetchDSN : String → Except Err String)
  | full (p : FullDSNProvider Err)

/-- Model of the driver.DriverContext capability of the inner driver:
OpenConnector builds a reusable inner connector from a DSN, and an inner
connector opens a physical connection given a context. -/
structure DriverContextCap (Conn K Err : Type) where
  openConnector : String → Except Err K
  connect : K → Ctx → Except Err Conn

/-- Model of the inner database driver: direct Open, plus the optional
driver.DriverContext capability. -/
structure InnerDriver (Conn K Err : Type) where
  openConn : String → Except Err Conn
  driverContext : Option (DriverContextCap Conn K Err)

/-- Model of the wrapping Driver struct: the inner driver and the (already
adapted) full DSN provider. -/
structure Driver (Conn K Err : Type) where
  inner : InnerDriver Conn K Err
  dsnp : FullDSNProvider Err

/-- Model of New: if the given provider is already a FullDSNProvider it is
used unwrapped; otherwise it is wrapped in fullProvider. -/
def New {Conn K Err : Type} (d : InnerDriver Conn K Err) (dsnp : AnyProvider Err) :
    Driver Conn K Err :=
  match dsnp with
  | .full p => { inner := d, dsnp := p }
  | .basic f => { inner := d, dsnp := fullProvider f }

/-- Model of Driver.Open: resolve the master DSN with the context-unaware
fetch, then delegate to the inner driver's Open with the resolved DSN. -/
def Driver.Open {Conn K Err : Type} (d : Driver Conn K Err) (dsn : String) :
    Except Err Conn :=
  match d.dsnp.fetchDSN dsn with
  | .error e => .error e
  | .ok innerDSN => d.inner.openConn innerDSN

/-- Model of the dsnConnector struct: it only stores the master DSN (the
wrapped driver is passed explicitly where Go stores a pointer to it). -/
structure DsnConnector where
  masterDSN : String
deriving Repr, DecidableEq

/-- Model of dsnConnector.Connect: the context is ignored and the driver's
Open method is called on the stored master DSN. -/
def DsnConnector.Connect {Conn K Err : Type} (drv : Driver Conn K Err)
    (c : DsnConnector) (_ : Ctx) : Except Err Conn :=
  Driver.Open drv c.masterDSN

/-- Model of the nativeConnector struct: master DSN, last fetched inner DSN,
and the cached inner connector built from it. The driver pointer is passed
explicitly to Connect. -/
structure NativeConnector (K : Type) where
  masterDSN : String
  innerDSN : String
  connector : K
deriving Repr, DecidableEq

/-- Model of nativeConnector.Connect. Mutation of the struct is modelled by
returning the updated struct next to the result. The driver.DriverContext
type assertion in the source always succeeds because a nativeConnector is
only built for such drivers, so the capability is taken as an argument. -/
def NativeConnector.Connect {Conn K Err : Type} (dsnp : FullDSNProvider Err)
    (cap : DriverContextCap Conn K Err) (c : NativeConnector K) (ctx : Ctx) :
    NativeConnector K × Except Err Conn :=
  match dsnp.fetchDSNWithContext ctx c.masterDSN with
  | .error e => (c, .error e)
  | .ok innerDSN =>
    if innerDSN ≠ c.innerDSN then
      match cap.openConnector innerDSN with
      | .error e => (c, .error e)
      | .ok conn =>
        let c2 : NativeConnector K := { c with connector := conn, innerDSN := innerDSN }
        (c2, cap.connect c2.connector ctx)
    else
      (c, cap.connect c.connector ctx)

/-- Model of connector kinds Driver.OpenConnector can return. -/
inductive ConnectorKind (K : Type) where
  | native (c : NativeConnector K)
  | dsnConn (c : DsnConnector)
deriving Repr, DecidableEq

/-- Model of Driver.OpenConnector: with the driver.DriverContext capability,
resolve once, build the inner connector and seed a nativeConnector with the
resolved DSN; without it, return a dsnConnector holding only the master. -/
def Driver.OpenConnector {Conn K Err : Type} (d : Driver Conn K Err) (dsn : String) :
    Except Err (ConnectorKind K) :=
  match d.inner.driverContext with
  | some cap =>
    match d.dsnp.fetchDSN dsn with
    | .error e => .error e
    | .ok innerDSN =>
      match cap.openConnector innerDSN with
      | .error e => .error e
      | .ok conn =>
        .ok (.native { masterDSN := dsn, innerDSN := innerDSN, connector := conn })
  | none => .ok (.dsnConn { masterDSN := dsn })

/-- Traced variant of Driver.Open, identical control flow, additionally
returning the list of DSN strings passed to the inner driver's Open. -/
def Driver.OpenT {Conn K Err : Type} (d : Driver Conn K Err) (dsn : String) :
    Except Err Conn × List String :=
  match d.dsnp.fetchDSN dsn with
  | .error e => (.error e, [])
  | .ok innerDSN => (d.inner.openConn innerDSN, [innerDSN])

/-- Traced variant of Driver.OpenConnector, identical control flow,
additionally returning the list of DSN strings passed to the inner driver's
OpenConnector. -/
def Driver.OpenConnectorT {Conn K Err : Type} (d : Driver Conn K Err) (dsn : String) :
    Except Err (ConnectorKind K) × List String :=
  match d.inner.driverContext with
  | some cap =>
    match d.dsnp.fetchDSN dsn with
    | .error e => (.error e, [])
    | .ok innerDSN =>
      match cap.openConnector innerDSN with
      | .error e => (.error e, [innerDSN])
      | .ok conn =>
        (.ok (.native { masterDSN := dsn, innerDSN := innerDSN, connector := conn }),
          [innerDSN])
  | none => (.ok (.dsnConn { masterDSN := dsn }), [])

/-- Traced variant of NativeConnector.Connect, identical control flow,
additionally returning the list of DSN strings passed to the inner driver's
OpenConnector (nonempty exactly when a rebuild is attempted). -/
def NativeConnector.ConnectT {Conn K Err : Type} (dsnp : FullDSNProvider Err)
    (cap : DriverContextCap Conn K Err) (c : NativeConnector K) (ctx : Ctx) :
    NativeConnector K × Except Err Conn × List String :=
  match dsnp.fetchDSNWithContext ctx c.masterDSN with
  | .error e => (c, .error e, [])
  | .ok innerDSN =>
    if innerDSN ≠ c.innerDSN then
      match cap.openConnector innerDSN with
      | .error e => (c, .error e, [innerDSN])
      | .ok conn =>
        let c2 : NativeConnector K := { c with connector := conn, innerDSN := innerDSN }
        (c2, cap.connect c2.connector ctx, [innerDSN])
    else
      (c, cap.connect c.connector ctx, [])

/-- Resolver that returns the same result on every fetch, used to drive one
call of a multi-call scenario with a chosen per-call resolver outcome. -/
def constProvider {Err : Type} (r : Except Err String) : FullDSNProvider Err :=
  { fetchDSN := fun _ => r, fetchDSNWithContext := fun _ _ => r }

/-- Multi-call scenario for the native connector: given the sequence rs of
DSN values the resolver returns on successive Connect calls, record for each
call the connector state seen on entry and the DSN strings that call passed
to the inner driver's OpenConnector. -/
def trajectory {Conn K Err : Type} (cap : DriverContextCap Conn K Err) (ctx : Ctx) :
    List String → NativeConnector K → List (NativeConnector K × List String)
  | [], _ => []
  | r :: rest, c =>
    (c, (NativeConnector.ConnectT (constProvider (Except.ok r)) cap c ctx).2.2) ::
      trajectory cap ctx rest
        (NativeConnector.ConnectT (constProvider (Except.ok r)) cap c ctx).1

/-- Consistency of a native connector with respect to the inner driver's
capability: the cached connector is the one OpenConnector builds from the
cached inner DSN. -/
def Consistent {Conn K Err : Type} (cap : DriverContextCap Conn K Err)
    (c : NativeConnector K) : Prop :=
  cap.openConnector c.innerDSN = Except.ok c.connector

/-
Interleaving model of two concurrent nativeConnector.Connect calls on the
same struct. The shared fields are innerDSN and connector; an inner
connector value is identified by the DSN it was built from. Each thread
performs, in source order, the shared-memory accesses of Connect: read
c.innerDSN for the comparison, then (on a detected change) write c.connector,
then write c.innerDSN. DSN resolution and OpenConnector are thread-local.
-/

/-- Shared fields of the nativeConnector struct, the connector identified by
the DSN the inner driver built it from. -/
structure CShared where
  innerDSN : String
  connector : String
deriving Repr, DecidableEq

/-- One in-flight Connect call: the DSN its resolver returned, and a program
counter over the shared accesses of the Connect body (0 = about to compare,
1 = about to write connector, 2 = about to write innerDSN, 3 = done). -/
structure CThread where
  dsn : String
  pc : Nat
deriving Repr, DecidableEq

/-- One atomic shared-memory access of the Connect body by one thread. -/
def threadStep (s : CShared) (t : CThread) : CShared × CThread :=
  match t.pc with
  | 0 => (s, { t with pc := if t.dsn ≠ s.innerDSN then 1 else 3 })
  | 1 => ({ s with connector := t.dsn }, { t with pc := 2 })
  | 2 => ({ s with innerDSN := t.dsn }, { t with pc := 3 })
  | _ => (s, t)

/-- Two Connect calls racing on one nativeConnector. -/
structure RaceState where
  shared : CShared
  t1 : CThread
  t2 : CThread
deriving Repr, DecidableEq

/-- Run one step of the chosen thread (true = first thread). -/
def raceStep (b : Bool) (s : RaceState) : RaceState :=
  if b then
    let r := threadStep s.shared s.t1
    { s with shared := r.1, t1 := r.2 }
  else
    let r := threadStep s.shared s.t2
    { s with shared := r.1, t2 := r.2 }

/-- Run a whole schedule of thread choices. -/
def raceRun (sched : List Bool) (s : RaceState) : RaceState :=
  sched.foldl (fun st b => raceStep b st) s

/-- Race scenario: a consistent connector cached for DSN a, one call
resolving b, one call resolving c. -/
def raceInit : RaceState :=
  { shared := { innerDSN := "a", connector := "a" },
    t1 := { dsn := "b", pc := 0 },
    t2 := { dsn := "c", pc := 0 } }

/-- Interleaved schedule: both calls compare against the stale DSN, both
write their connector, then their innerDSN in opposite orders. -/
def raceSchedInterleaved : List Bool := [true, false, true, false, false, true]

/-- Serialized schedule: the first call runs to completion before the
second starts. -/
def raceSchedSerial : List Bool := [true, true, true, false, false, false]

/-
Concrete collaborator instances used to exercise the theorems, with
connections, connectors and errors all carried as strings: a connector is
identified by the DSN it was built from, and a connection by the connector
that opened it.
-/

/-- Example context that is still live. -/
def exCtx : Ctx := { canceled := false }

/-- Example context whose token has already expired. -/
def exCtxCanceled : Ctx := { canceled := true }

/-- Example inner-driver capability whose OpenConnector always succeeds. -/
def exCap : DriverContextCap String String String :=
  { openConnector := fun s => Except.ok s, connect := fun k _ => Except.ok k }

/-- Example inner-driver capability whose OpenConnector always fails. -/
def exFailCap : DriverContextCap String String String :=
  { openConnector := fun _ => Except.error "bad dsn", connect := fun k _ => Except.ok k }

/-- Example native connector cached for inner DSN a. -/
def exConn0 : NativeConnector String :=
  { masterDSN := "m", innerDSN := "a", connector := "a" }

/-- Example resolver whose fetches always fail. -/
def exFailProvider : FullDSNProvider String :=
  { fetchDSN := fun _ => Except.error "boom",
    fetchDSNWithContext := fun _ _ => Except.error "boom" }

/-- Example resolver whose context-aware fetch honors cancellation and whose
basic fetch returns the master unchanged. -/
def exHonorProvider : FullDSNProvider String :=
  { fetchDSN := fun m => Except.ok m,
    fetchDSNWithContext := fun ctx m =>
      if ctx.canceled then Except.error "context canceled" else Except.ok m }

/-- Example wrapping driver over an inner driver with no DriverContext
capability, using the cancellation-honoring resolver. -/
def exDegenDriver : Driver String String String :=
  { inner := { openConn := fun s => Except.ok s, driverContext := none },
    dsnp := exHonorProvider }

/-- Example native connector as seeded by OpenConnector for master m. -/
def exSeeded : NativeConnector String :=
  { masterDSN := "m", innerDSN := "m", connector := "m" }

/-- Claim C2: when DSN resolution fails, nativeConnector.Connect returns
exactly the resolver's error with no connection, and the cached state
(innerDSN and connector) is the same struct it started with. -/
theorem c2_resolver_error_preserves_state {Conn K Err : Type}
    (dsnp : FullDSNProvider Err) (cap : DriverContextCap Conn K Err)
    (c : NativeConnector K) (ctx : Ctx) (e : Err)
    (h : dsnp.fetchDSNWithContext ctx c.masterDSN = Except.error e) :
    NativeConnector.Connect dsnp cap c ctx = (c, Except.error e) := by
  simp [NativeConnector.Connect, h]

/-- Witness for C2 at a failing resolver. -/
theorem c2_witness :
    NativeConnector.Connect exFailProvider exCap exConn0 exCtx
      = (exConn0, Except.error "boom") :=
  c2_resolver_error_preserves_state exFailProvider exCap exConn0 exCtx "boom" rfl

/-- Claim C3: when the resolved DSN differs from the cached one and
OpenConnector fails, Connect returns that construction error with the cached
state unchanged, and a subsequent call on the returned state that resolves
the same new DSN passes it to OpenConnector again (trace [d]) instead of
short-circuiting. -/
theorem c3_build_error_preserves_state_and_retries {Conn K Err : Type}
    (dsnp : FullDSNProvider Err) (cap : DriverContextCap Conn K Err)
    (c : NativeConnector K) (ctx : Ctx) (d : String) (e : Err)
    (h1 : dsnp.fetchDSNWithContext ctx c.masterDSN = Except.ok d)
    (h2 : d ≠ c.innerDSN)
    (h3 : cap.openConnector d = Except.error e) :
    NativeConnector.Connect dsnp cap c ctx = (c, Except.error e) ∧
      (NativeConnector.ConnectT (constProvider (Except.ok d)) cap
          (NativeConnector.Connect dsnp cap c ctx).1 ctx).2.2 = [d] := by
  have hmain : NativeConnector.Connect dsnp cap c ctx = (c, Except.error e) := by
    simp [NativeConnector.Connect, h1, h2, h3]
  refine ⟨hmain, ?_⟩
  rw [hmain]
  simp [NativeConnector.ConnectT, constProvider, h2, h3]

/-- Witness for C3 at a failing constructor. -/
theorem c3_witness :
    NativeConnector.Connect (constProvider (Except.ok "b")) exFailCap exConn0 exCtx
        = (exConn0, Except.error "bad dsn") ∧
      (NativeConnector.ConnectT (constProvider (Except.ok "b")) exFailCap
          (NativeConnector.Connect (constProvider (Except.ok "b")) exFailCap exConn0 exCtx).1
          exCtx).2.2 = ["b"] :=
  c3_build_error_preserves_state_and_retries (constProvider (Except.ok "b")) exFailCap
    exConn0 exCtx "b" "bad dsn" rfl (by decide) rfl

/-- Claim C5: for an inner driver without the DriverContext capability,
OpenConnector returns the degenerate connector holding only the master DSN,
and each of its Connect calls, whatever the context, resolves the master via
the basic fetch and opens the inner driver directly, with no state carried
between calls. -/
theorem c5_degenerate_factory_direct_open {Conn K Err : Type}
    (oc : String → Except Err Conn) (dsnp : FullDSNProvider Err) (dsn : String) :
    Driver.OpenConnector
        ({ inner := { openConn := oc, driverContext := none }, dsnp := dsnp } :
          Driver Conn K Err) dsn
        = Except.ok (ConnectorKind.dsnConn { masterDSN := dsn }) ∧
      ∀ ctx : Ctx,
        DsnConnector.Connect
            ({ inner := { openConn := oc, driverContext := none }, dsnp := dsnp } :
              Driver Conn K Err)
            { masterDSN := dsn } ctx
          = (dsnp.fetchDSN dsn).bind oc := by
  refine ⟨rfl, fun ctx => ?_⟩
  cases h : dsnp.fetchDSN dsn <;>
    simp [DsnConnector.Connect, Driver.Open, h, Except.bind]

/-- Claim C6: New adapts a basic provider with the fallback wrapper, whose
cancellation-aware fetch discards the token and returns exactly what the
base fetch returns, and uses a provider that already supports cancellation
unwrapped. -/
theorem c6_provider_adaptation {Conn K Err : Type} (d : InnerDriver Conn K Err)
    (f : String → Except Err String) (p : FullDSNProvider Err) (ctx : Ctx) (m : String) :
    (New d (AnyProvider.basic f)).dsnp.fetchDSNWithContext ctx m = f m ∧
      (New d (AnyProvider.basic f)).dsnp.fetchDSN m = f m ∧
      New d (AnyProvider.full p) = { inner := d, dsnp := p } :=
  ⟨rfl, rfl, rfl⟩

/-- Claim C10: dsnConnector.Connect discards its context entirely: for every
context its result is the driver's direct Open on the stored master DSN,
which resolves through the context-unaware fetch and feeds the inner
driver's Open with the resolved DSN. -/
theorem c10_degenerate_connect_ignores_context {Conn K Err : Type}
    (drv : Driver Conn K Err) (c : DsnConnector) (ctx ctx2 : Ctx) :
    DsnConnector.Connect drv c ctx = Driver.Open drv c.masterDSN ∧
      DsnConnector.Connect drv c ctx = DsnConnector.Connect drv c ctx2 ∧
      Driver.Open drv c.masterDSN = (drv.dsnp.fetchDSN c.masterDSN).bind drv.inner.openConn := by
  refine ⟨rfl, rfl, ?_⟩
  cases h : drv.dsnp.fetchDSN c.masterDSN <;> simp [Driver.Open, h, Except.bind]

/-- Claim C1: over any sequence of Connect calls whose resolver returns the
DSN values rs and whose inner driver builds connectors without failing, a
call attempts a rebuild (its trace of DSNs passed to OpenConnector is
nonempty) exactly when the DSN it resolved differs, by string equality, from
the innerDSN cached on entry to that call. -/
theorem c1_rebuild_iff_dsn_changed {Conn K Err : Type}
    (build : String → K) (connFn : K → Ctx → Except Err Conn) (ctx : Ctx)
    (rs : List String) (c0 : NativeConnector K)
    (p : String × NativeConnector K × List String)
    (hp : p ∈ rs.zip (trajectory
        { openConnector := fun s => Except.ok (build s), connect := connFn } ctx rs c0)) :
    p.2.2 ≠ [] ↔ p.1 ≠ p.2.1.innerDSN := by
  induction rs generalizing c0 with
  | nil => simp [trajectory] at hp
  | cons r rest ih =>
    simp only [trajectory, List.zip_cons_cons, List.mem_cons] at hp
    rcases hp with hp | hp
    · subst hp
      by_cases hr : r = c0.innerDSN
      · simp [NativeConnector.ConnectT, constProvider, hr]
      · simp [NativeConnector.ConnectT, constProvider, hr]
    · exact ih _ hp

/-- Witness for C1 on the scenario where the resolver returns a then b for a
connector cached at a: the second call has a nonempty rebuild trace. -/
theorem c1_witness :
    ((["b"] : List String) ≠ []) ↔ ("b" ≠ exConn0.innerDSN) :=
  c1_rebuild_iff_dsn_changed (fun s => s)
    (fun (k : String) (_ : Ctx) => (Except.ok k : Except String String)) exCtx
    ["a", "b"] exConn0 ("b", exConn0, ["b"]) (by decide)

/-- Claim C7: the traced operations project to the plain ones, and their
traces, the exact lists of strings handed to the inner driver's Open and
OpenConnector, consist precisely of the resolver's successful output for the
master DSN, so the master itself never reaches the inner driver on any of
the three paths. -/
theorem c7_only_resolved_dsns_reach_inner {Conn K Err : Type}
    (d : Driver Conn K Err) (dsn : String) (dsnp : FullDSNProvider Err)
    (cap : DriverContextCap Conn K Err) (c : NativeConnector K) (ctx : Ctx) :
    (Driver.OpenT d dsn).2
        = (match d.dsnp.fetchDSN dsn with
            | .ok s => [s]
            | .error _ => []) ∧
      (Driver.OpenT d dsn).1 = Driver.Open d dsn ∧
      (Driver.OpenConnectorT d dsn).2
        = (match d.inner.driverContext with
            | some _ =>
              match d.dsnp.fetchDSN dsn with
              | .ok s => [s]
              | .error _ => []
            | none => []) ∧
      (Driver.OpenConnectorT d dsn).1 = Driver.OpenConnector d dsn ∧
      (NativeConnector.ConnectT dsnp cap c ctx).2.2
        = (match dsnp.fetchDSNWithContext ctx c.masterDSN with
            | .ok s => if s ≠ c.innerDSN then [s] else []
            | .error _ => []) ∧
      (NativeConnector.ConnectT dsnp cap c ctx).1
          = (NativeConnector.Connect dsnp cap c ctx).1 ∧
      (NativeConnector.ConnectT dsnp cap c ctx).2.1
          = (NativeConnector.Connect dsnp cap c ctx).2 := by
  refine ⟨?_, ?_, ?_, ?_, ?_, ?_, ?_⟩
  · cases h : d.dsnp.fetchDSN dsn <;> simp [Driver.OpenT, h]
  · cases h : d.dsnp.fetchDSN dsn <;> simp [Driver.OpenT, Driver.Open, h]
  · cases hcap : d.inner.driverContext with
    | none => simp [Driver.OpenConnectorT, hcap]
    | some cap2 =>
      cases h : d.dsnp.fetchDSN dsn with
      | error e => simp [Driver.OpenConnectorT, hcap, h]
      | ok s =>
        cases h2 : cap2.openConnector s <;> simp [Driver.OpenConnectorT, hcap, h, h2]
  · cases hcap : d.inner.driverContext with
    | none => simp [Driver.OpenConnectorT, Driver.OpenConnector, hcap]
    | some cap2 =>
      cases h : d.dsnp.fetchDSN dsn with
      | error e => simp [Driver.OpenConnectorT, Driver.OpenConnector, hcap, h]
      | ok s =>
        cases h2 : cap2.openConnector s <;>
          simp [Driver.OpenConnectorT, Driver.OpenConnector, hcap, h, h2]
  · cases h : dsnp.fetchDSNWithContext ctx c.masterDSN with
    | error e => simp [NativeConnector.ConnectT, h]
    | ok s =>
      by_cases hs : s = c.innerDSN
      · simp [NativeConnector.ConnectT, h, hs]
      · cases h2 : cap.openConnector s <;> simp [NativeConnector.ConnectT, h, hs, h2]
  · cases h : dsnp.fetchDSNWithContext ctx c.masterDSN with
    | error e => simp [NativeConnector.ConnectT, NativeConnector.Connect, h]
    | ok s =>
      by_cases hs : s = c.innerDSN
      · simp [NativeConnector.ConnectT, NativeConnector.Connect, h, hs]
      · cases h2 : cap.openConnector s <;>
          simp [NativeConnector.ConnectT, NativeConnector.Connect, h, hs, h2]
  · cases h : dsnp.fetchDSNWithContext ctx c.masterDSN with
    | error e => simp [NativeConnector.ConnectT, NativeConnector.Connect, h]
    | ok s =>
      by_cases hs : s = c.innerDSN
      · simp [NativeConnector.ConnectT, NativeConnector.Connect, h, hs]
      · cases h2 : cap.openConnector s <;>
          simp [NativeConnector.ConnectT, NativeConnector.Connect, h, hs, h2]

/-- Claim C8: the native connector seeded by OpenConnector is consistent,
meaning its cached connector is the one the inner driver's OpenConnector
builds from its cached innerDSN, and every Connect call, whether it
succeeds, fails to resolve, or fails to rebuild, preserves consistency. -/
theorem c8_cache_consistency {Conn K Err : Type}
    (oc : String → Except Err Conn) (cap : DriverContextCap Conn K Err)
    (dsnp dsnp2 : FullDSNProvider Err) (dsn : String) :
    (∀ c0 : NativeConnector K,
        Driver.OpenConnector
            ({ inner := { openConn := oc, driverContext := some cap }, dsnp := dsnp } :
              Driver Conn K Err) dsn
          = Except.ok (ConnectorKind.native c0) → Consistent cap c0) ∧
      ∀ (c : NativeConnector K) (ctx : Ctx), Consistent cap c →
        Consistent cap (NativeConnector.Connect dsnp2 cap c ctx).1 := by
  constructor
  · intro c0 h
    simp only [Driver.OpenConnector] at h
    split at h
    · simp at h
    · split at h
      · simp at h
      · rename_i s hfetch k hok
        simp only [Except.ok.injEq, ConnectorKind.native.injEq] at h
        rw [← h]
        simpa [Consistent] using hok
  · intro c ctx hc
    cases hf : dsnp2.fetchDSNWithContext ctx c.masterDSN with
    | error e => simpa [NativeConnector.Connect, hf] using hc
    | ok s =>
      by_cases hs : s = c.innerDSN
      · simpa [NativeConnector.Connect, hf, hs] using hc
      · cases ho : cap.openConnector s with
        | error e => simpa [NativeConnector.Connect, hf, hs, ho] using hc
        | ok k => simp [NativeConnector.Connect, Consistent, hf, hs, ho]

/-- Witness for C8: the connector seeded for master m is consistent and
stays consistent across a Connect call that rebuilds for DSN b. -/
theorem c8_witness :
    Consistent exCap exSeeded ∧
      Consistent exCap
        (NativeConnector.Connect (constProvider (Except.ok "b")) exCap exSeeded exCtx).1 := by
  have h := c8_cache_consistency (fun s => Except.ok s) exCap exHonorProvider
    (constProvider (Except.ok "b")) "m"
  exact ⟨h.1 exSeeded rfl, h.2 exSeeded exCtx (h.1 exSeeded rfl)⟩

/-- Claim C9, amended: on the factory-capable path, when the token is
already expired and the resolver's cancellation-aware fetch reports an
error, Connect returns exactly that error, the cached state is the struct it
started with, and the inner connector's physical-connection step is never
issued: the outcome is the same whatever the inner connect function is. -/
theorem c9_canceled_resolve_no_mutation {Conn K Err : Type}
    (dsnp : FullDSNProvider Err) (oc : String → Except Err K)
    (c : NativeConnector K) (ctx : Ctx) (e : Err)
    (_hc : ctx.canceled = true)
    (h : dsnp.fetchDSNWithContext ctx c.masterDSN = Except.error e) :
    ∀ connFn : K → Ctx → Except Err Conn,
      NativeConnector.Connect dsnp { openConnector := oc, connect := connFn } c ctx
        = (c, Except.error e) := by
  intro connFn
  simp [NativeConnector.Connect, h]

/-- Witness for C9 with the cancellation-honoring resolver and the expired
context. -/
theorem c9_witness :
    NativeConnector.Connect exHonorProvider
        { openConnector := fun s => Except.ok s, connect := fun k _ => Except.ok k }
        exConn0 exCtxCanceled
      = (exConn0, Except.error "context canceled") :=
  c9_canceled_resolve_no_mutation exHonorProvider (fun s => Except.ok s) exConn0
    exCtxCanceled "context canceled" rfl rfl (fun k _ => Except.ok k)

/-- Counterexample to C9 as stated: the token is already expired and the
resolver honors cancellation, yet the connect call on the degenerate
connector returns a connection instead of a cancellation-kind error, because
dsnConnector.Connect discards the token and resolves through the
context-unaware fetch. -/
theorem c9_counterexample :
    exHonorProvider.fetchDSNWithContext exCtxCanceled "m" = Except.error "context canceled" ∧
      DsnConnector.Connect exDegenDriver { masterDSN := "m" } exCtxCanceled
        = Except.ok "m" :=
  ⟨rfl, rfl⟩

/-- Claim C4, refuted by the code: nativeConnector.Connect takes no lock, so
interleaving the shared-field accesses of two concurrent Connect calls that
both observe the stale cached DSN leaves a torn pair, the innerDSN written
by one rebuild next to the connector written by the other, while the same
two calls run serially end in a consistent pair. -/
theorem c4_unsynchronized_race_torn_pair :
    raceInit.shared.connector = raceInit.shared.innerDSN ∧
      (raceRun raceSchedInterleaved raceInit).t1.pc = 3 ∧
      (raceRun raceSchedInterleaved raceInit).t2.pc = 3 ∧
      (raceRun raceSchedInterleaved raceInit).shared.innerDSN = "b" ∧
      (raceRun raceSchedInterleaved raceInit).shared.connector = "c" ∧
      (raceRun raceSchedInterleaved raceInit).shared.connector
          ≠ (raceRun raceSchedInterleaved raceInit).shared.innerDSN ∧
      (raceRun raceSchedSerial raceInit).shared.connector
          = (raceRun raceSchedSerial raceInit).shared.innerDSN := by
  decide

end LazyDSN
